import Mathlib

/-!
Shallow embedding of the ai_dev_team repository (tool adapters, selection
parsing, custom crew assembly, CLI exit behaviour) and proofs of the
frozen claims about it.  Python code is translated function by function;
operating-system and network primitives that the repository merely calls
(mkdir, shutil, subprocess, requests) are abstracted as environment
parameters that may fail, while everything written in the repository
itself is embedded concretely.
-/

namespace AiDevTeam

/-! ### Python string primitives used by the repository -/

/-- Whitespace characters recognised by the Python str.strip default
(ASCII subset; exotic Unicode whitespace is outside the model). -/
def pyIsSpace (c : Char) : Bool :=
  c = ' ' || c = '\t' || c = '\n' || c = '\x0d' || c = '\x0b' || c = '\x0c'

/-- Python str.strip(): drop leading and trailing whitespace. -/
def pyStrip (s : String) : String :=
  ⟨(s.data.dropWhile pyIsSpace).reverse.dropWhile pyIsSpace |>.reverse⟩

/-- Python str.isdigit(): nonempty and every character a decimal digit
(ASCII subset of the Unicode notion). -/
def pyIsDigit (s : String) : Bool :=
  !s.data.isEmpty && s.data.all (·.isDigit)

/-- Python int(s) for a string of decimal digits. -/
def pyToNat (s : String) : Nat :=
  s.data.foldl (fun acc c => acc * 10 + (c.toNat - 48)) 0

/-- Python truthiness of an Optional[str]: None and the empty string are
falsy, every other string is truthy. -/
def truthy : Option String → Bool
  | none => false
  | some s => !s.isEmpty

/-- Does the second character list start with the first one? -/
def beginsWith : List Char → List Char → Bool
  | [], _ => true
  | _ :: _, [] => false
  | a :: as, b :: bs => a = b && beginsWith as bs

/-- Splitter for Python str.split(sep) with a nonempty separator, written
with a character-count fuel so that it reduces by structural recursion. -/
def pySplitAux (sep : List Char) : Nat → List Char → List Char → List String
  | _, [], acc => [String.mk acc.reverse]
  | 0, s, acc => [String.mk (acc.reverse ++ s)]
  | Nat.succ fuel, c :: rest, acc =>
    if beginsWith sep (c :: rest) then
      String.mk acc.reverse :: pySplitAux sep fuel ((c :: rest).drop sep.length) []
    else
      pySplitAux sep fuel rest (c :: acc)

/-- Python str.split(sep) for a nonempty separator. -/
def pySplit (s sep : String) : List String :=
  pySplitAux sep.data s.data.length s.data []

/-- Python substring containment (pat in s), for nonempty pat. -/
def containsStr (s pat : String) : Bool :=
  (pySplit s pat).length != 1

/-! ### parse_selection (main.py lines 115-125)

def parse_selection(selection, available_list):
    selected = []
    for item in selection.split(','):
        item = item.strip()
        if item.isdigit():
            idx = int(item) - 1
            if 0 <= idx < len(available_list):
                selected.append(available_list[idx])
        elif item in available_list:
            selected.append(item)
    return selected
-/

/-- Resolution of one stripped token against the available list: a digit
token is a 1-based index, any other token must be a list member. -/
def resolveToken (avail : List String) (item : String) : Option String :=
  if pyIsDigit item then
    let idx : Int := (pyToNat item : Int) - 1
    if h : 0 ≤ idx ∧ idx < avail.length then
      some (avail.get ⟨idx.toNat, by omega⟩)
    else
      none
  else if avail.contains item then
    some item
  else
    none

/-- parse_selection from main.py: split on commas, strip each token,
resolve each token, silently dropping the ones that resolve to nothing. -/
def parseSelection (selection : String) (avail : List String) : List String :=
  (pySplit selection ",").filterMap (fun item => resolveToken avail (pyStrip item))

/-- available_agents from run_custom_workflow (main.py lines 82-86). -/
def availableAgents : List String :=
  ["senior_developer", "frontend_developer", "backend_developer",
   "devops_engineer", "qa_engineer", "tech_lead", "business_analyst",
   "security_specialist", "database_admin", "ui_ux_designer"]

/-- available_tasks from run_custom_workflow (main.py lines 89-94). -/
def availableTasks : List String :=
  ["analyze_project", "design_architecture", "develop_backend",
   "develop_frontend", "design_database", "assess_security",
   "create_testing_strategy", "setup_devops", "design_user_experience",
   "review_code"]

/-- Keys of agent_map in AiDevTeamCrew.create_custom_crew (crew.py 237-248). -/
def agentMapKeys : List String :=
  ["senior_developer", "frontend_developer", "backend_developer",
   "devops_engineer", "qa_engineer", "tech_lead", "business_analyst",
   "security_specialist", "database_admin", "ui_ux_designer"]

/-- Keys of task_map in AiDevTeamCrew.create_custom_crew (crew.py 251-262). -/
def taskMapKeys : List String :=
  ["analyze_project", "design_architecture", "develop_backend",
   "develop_frontend", "design_database", "assess_security",
   "create_testing_strategy", "setup_devops", "design_user_experience",
   "review_code"]

/-- Names of the tasks the custom crew will run, in order: crew.py builds
selected_tasks as a comprehension over tasks_list in the given order,
keeping names that are task_map keys. -/
def createCustomCrewTaskNames (tasksList : List String) : List String :=
  tasksList.filter (fun name => taskMapKeys.contains name)

/-- Names of the agents of the custom crew, in order (crew.py line 265). -/
def createCustomCrewAgentNames (agentsList : List String) : List String :=
  agentsList.filter (fun name => agentMapKeys.contains name)

/-- Every name produced by parseSelection is a member of the available
list: digit tokens yield list elements, name tokens are checked for
membership, everything else is dropped. -/
theorem parseSelection_mem_avail (selection : String) (avail : List String) :
    (parseSelection selection avail).all (fun x => avail.contains x) = true := by
  unfold parseSelection
  rw [List.all_eq_true]
  intro x hx
  rw [List.mem_filterMap] at hx
  obtain ⟨item, _, hres⟩ := hx
  unfold resolveToken at hres
  split at hres
  · dsimp only at hres
    split at hres
    · simp only [Option.some.injEq] at hres
      subst hres
      exact List.elem_iff.mpr (List.get_mem _ _ _)
    · exact absurd hres (by simp)
  · split at hres
    · simp only [Option.some.injEq] at hres
      subst hres
      assumption
    · exact absurd hres (by simp)

/-! ### FileSystemTool (tools/file_system_tool.py)

The filesystem is a finite map from path strings to entries (file with
content, or directory).  Text file reads and writes follow the
documented Python text-mode semantics: write_text stores the string
(os.linesep is a single newline here) and read_text applies universal
newline translation.  OS primitives the repository merely invokes
(mkdir, shutil.rmtree, iterdir, shutil.copy2, shutil.move) are abstract
environment operations that may raise. -/

/-- A filesystem entry: a text file with its stored content, or a
directory. -/
inductive Entry
  | file (content : String)
  | dir
deriving DecidableEq, Repr

/-- A filesystem: an association list from paths to entries (first
binding wins). -/
structure FS where
  entries : List (String × Entry)
deriving DecidableEq, Repr

/-- Path lookup (Path.exists / stat). -/
def FS.lookup (fs : FS) (p : String) : Option Entry :=
  (fs.entries.find? (fun e => e.1 = p)).map (fun e => e.2)

/-- Bind a path to an entry, shadowing any previous binding. -/
def FS.insert (fs : FS) (p : String) (e : Entry) : FS :=
  ⟨(p, e) :: fs.entries⟩

/-- Remove a path binding (os.unlink). -/
def FS.remove (fs : FS) (p : String) : FS :=
  ⟨fs.entries.filter (fun q => q.1 != p)⟩

/-- An operating-system failure, carrying the text Python would render
for the caught exception. -/
structure OsErr where
  msg : String
deriving DecidableEq, Repr

/-- Universal newline translation performed by Python text-mode reads:
CRLF and lone CR both become LF. -/
def univNewlines : List Char → List Char
  | [] => []
  | '\x0d' :: '\n' :: rest => '\n' :: univNewlines rest
  | '\x0d' :: rest => '\n' :: univNewlines rest
  | c :: rest => c :: univNewlines rest

/-- read_text(encoding=utf-8): stored bytes decoded with universal
newline translation. -/
def readText (c : String) : String :=
  String.mk (univNewlines c.data)

/-- Abstract OS operations used by FileSystemTool; each may fail with an
OsErr, as the corresponding Python call may raise. -/
structure FsEnv where
  /-- path_obj.parent.mkdir(parents=True, exist_ok=True), given the
  child path whose parent chain is created. -/
  mkdirParent : String → FS → Except OsErr FS
  /-- path_obj.mkdir(parents=True, exist_ok=True) on the path itself. -/
  mkdirPath : String → FS → Except OsErr FS
  /-- shutil.rmtree on an existing path. -/
  rmtree : String → FS → Except OsErr FS
  /-- path_obj.iterdir() on an existing path: (name, is_dir) pairs. -/
  iterdir : String → FS → Except OsErr (List (String × Bool))
  /-- shutil.copy2(src, dst) after both checks passed. -/
  copy2 : String → String → FS → Except OsErr FS
  /-- shutil.move(src, dst) after both checks passed. -/
  move : String → String → FS → Except OsErr FS

/-- The body of FileSystemTool._run, before the enclosing try/except:
dispatch on the operation name, mirroring file_system_tool.py lines
30-95.  Returns the result string and the new filesystem, or the
exception that escapes. -/
def fsRunBody (env : FsEnv) (operation path : String)
    (content destination : Option String) (fs : FS) :
    Except OsErr (String × FS) :=
  if operation = "create_file" then do
    let fs ← env.mkdirParent path fs
    match fs.lookup path with
    | none => .ok ("File created: " ++ path, fs.insert path (.file ""))
    | some _ => .ok ("File created: " ++ path, fs)
  else if operation = "read_file" then
    match fs.lookup path with
    | none => .ok ("File not found: " ++ path, fs)
    | some .dir => .error ⟨"IsADirectoryError: " ++ path⟩
    | some (.file c) => .ok (readText c, fs)
  else if operation = "write_file" then
    match content with
    | none => .ok ("Content is required for write operation", fs)
    | some c => do
      let fs ← env.mkdirParent path fs
      match fs.lookup path with
      | some .dir => .error ⟨"IsADirectoryError: " ++ path⟩
      | _ => .ok ("Content written to: " ++ path, fs.insert path (.file c))
  else if operation = "delete_file" then
    match fs.lookup path with
    | some (.file _) => .ok ("File deleted: " ++ path, fs.remove path)
    | some .dir => .error ⟨"IsADirectoryError: " ++ path⟩
    | none => .ok ("File not found: " ++ path, fs)
  else if operation = "create_dir" then do
    let fs ← env.mkdirPath path fs
    .ok ("Directory created: " ++ path, fs)
  else if operation = "delete_dir" then
    match fs.lookup path with
    | none => .ok ("Directory not found: " ++ path, fs)
    | some _ => do
      let fs ← env.rmtree path fs
      .ok ("Directory deleted: " ++ path, fs)
  else if operation = "list_dir" then
    match fs.lookup path with
    | none => .ok ("Directory not found: " ++ path, fs)
    | some _ => do
      let items ← env.iterdir path fs
      let rendered := items.map (fun it =>
        (if it.2 then "DIR: " else "FILE: ") ++ it.1)
      .ok (String.intercalate "\n" rendered, fs)
  else if operation = "copy_file" then
    match destination with
    | none => .ok ("Destination is required for copy operation", fs)
    | some dest =>
      match fs.lookup path with
      | none => .ok ("Source file not found: " ++ path, fs)
      | some _ => do
        let fs ← env.mkdirParent dest fs
        let fs ← env.copy2 path dest fs
        .ok ("File copied from " ++ path ++ " to " ++ dest, fs)
  else if operation = "move_file" then
    match destination with
    | none => .ok ("Destination is required for move operation", fs)
    | some dest =>
      match fs.lookup path with
      | none => .ok ("Source file not found: " ++ path, fs)
      | some _ => do
        let fs ← env.mkdirParent dest fs
        let fs ← env.move path dest fs
        .ok ("File moved from " ++ path ++ " to " ++ dest, fs)
  else
    .ok ("Unknown operation: " ++ operation, fs)

/-- FileSystemTool._run: the body wrapped in the try/except of lines
29 and 97-98, which turns any escaped exception into a description
string.  The filesystem state left by a partially completed failing
operation is not needed by any claim and is modelled as the initial
state. -/
def fsRun (env : FsEnv) (operation path : String)
    (content destination : Option String) (fs : FS) : String × FS :=
  match fsRunBody env operation path content destination fs with
  | .ok r => r
  | .error e => ("Error executing " ++ operation ++ ": " ++ e.msg, fs)

/-! ### GitTool (tools/git_tool.py)

Subprocess invocations are recorded so that frame claims (no subprocess
touched) are statable.  Path resolution and existence are abstract
environment functions; subprocess.run may raise (e.g. when the git
binary is missing). -/

/-- Result of subprocess.run with capture_output=True. -/
structure ProcResult where
  returncode : Int
  stdout : String
  stderr : String
deriving DecidableEq, Repr

/-- One recorded subprocess invocation: argument vector and working
directory. -/
structure ProcCall where
  args : List String
  cwd : String
deriving DecidableEq, Repr

/-- Abstract OS operations used by GitTool. -/
structure GitEnv where
  /-- Path.cwd() at entry. -/
  cwd : String
  /-- Path(path).resolve(). -/
  resolve : String → String
  /-- repo_path.exists(). -/
  pathExists : String → Bool
  /-- subprocess.run(args, capture_output=True, text=True, cwd=...). -/
  runProc : List String → String → Except OsErr ProcResult

/-- Formatting of a finished subprocess result (git_tool.py lines
95-98). -/
def gitFinish (operation : String) (r : ProcResult) : String :=
  if r.returncode = 0 then
    "Git " ++ operation ++ " successful:\n" ++ r.stdout
  else
    "Git " ++ operation ++ " failed:\n" ++ r.stderr

/-- Run one git subprocess and format its outcome, recording the call. -/
def runGitCmd (env : GitEnv) (operation : String) (args : List String)
    (cwd : String) : Except OsErr (String × List ProcCall) :=
  match env.runProc args cwd with
  | .error e => .error e
  | .ok r => .ok (gitFinish operation r, [⟨args, cwd⟩])

/-- The body of GitTool._run before the enclosing try/except, mirroring
git_tool.py lines 27-98: the clone-with-url branch bypasses the path
existence check; every other branch first requires the resolved path to
exist, then validates per-operation arguments. -/
def gitRunBody (env : GitEnv) (operation path : String)
    (message branch remoteUrl : Option String) :
    Except OsErr (String × List ProcCall) :=
  let originalDir := env.cwd
  let repoPath := env.resolve path
  if operation = "clone" && truthy remoteUrl then
    runGitCmd env operation ["git", "clone", remoteUrl.getD "", repoPath]
      originalDir
  else if !env.pathExists repoPath then
    .ok ("Path does not exist: " ++ path, [])
  else if operation = "init" then
    runGitCmd env operation ["git", "init"] repoPath
  else if operation = "add" then
    runGitCmd env operation ["git", "add", "."] repoPath
  else if operation = "commit" then
    if !truthy message then
      .ok ("Commit message is required", [])
    else
      runGitCmd env operation ["git", "commit", "-m", message.getD ""] repoPath
  else if operation = "push" then
    runGitCmd env operation ["git", "push"] repoPath
  else if operation = "pull" then
    runGitCmd env operation ["git", "pull"] repoPath
  else if operation = "status" then
    runGitCmd env operation ["git", "status"] repoPath
  else if operation = "branch" then
    if truthy branch then
      runGitCmd env operation ["git", "branch", branch.getD ""] repoPath
    else
      runGitCmd env operation ["git", "branch"] repoPath
  else if operation = "checkout" then
    if !truthy branch then
      .ok ("Branch name is required for checkout", [])
    else
      runGitCmd env operation ["git", "checkout", branch.getD ""] repoPath
  else
    .ok ("Unknown Git operation: " ++ operation, [])

/-- GitTool._run: body wrapped by the try/except of lines 27 and
100-101.  Calls attempted before a raising subprocess are not needed by
any claim and are dropped in the error branch. -/
def gitRun (env : GitEnv) (operation path : String)
    (message branch remoteUrl : Option String) : String × List ProcCall :=
  match gitRunBody env operation path message branch remoteUrl with
  | .ok r => r
  | .error e => ("Error executing Git " ++ operation ++ ": " ++ e.msg, [])

/-! ### WebResearchTool (tools/web_research_tool.py)

HTTP, JSON decoding and HTML text extraction are abstract environment
operations; everything the repository computes on their results
(dispatch, formatting, cleanup, truncation) is concrete. -/

/-- An HTTP response as seen through requests.get. -/
structure HttpResp where
  statusCode : Nat
  content : String
deriving DecidableEq, Repr

/-- The DuckDuckGo JSON fields the tool reads: the Abstract string
(empty when missing) and, per RelatedTopics element, its Text field
when the element is a dict carrying one. -/
structure DuckData where
  abstract : String
  relatedTopics : List (Option String)
deriving DecidableEq, Repr

/-- Abstract network and parsing operations used by WebResearchTool. -/
structure WebEnv where
  /-- requests.get(url, timeout=10), possibly with headers. -/
  httpGet : String → Except OsErr HttpResp
  /-- response.json() and field access on the DuckDuckGo payload. -/
  parseJson : String → Except OsErr DuckData
  /-- BeautifulSoup parsing, script/style removal and get_text(). -/
  getText : String → String

/-- The DuckDuckGo instant-answer URL built at line 44. -/
def duckUrl (query : String) : String :=
  "https://api.duckduckgo.com/?q=" ++ query ++
    "&format=json&no_html=1&skip_disambig=1"

/-- Result assembly of _search_web lines 50-59. -/
def renderSearch (query : String) (d : DuckData) : String :=
  let base := "Search results for: " ++ query ++ "\n\n"
  let base :=
    if d.abstract != "" then base ++ "Summary: " ++ d.abstract ++ "\n\n"
    else base
  if !d.relatedTopics.isEmpty then
    base ++ "Related Topics:\n" ++
      String.join (((d.relatedTopics.take 5).filterMap id).map
        (fun t => "- " ++ t ++ "\n"))
  else base

/-- Body of _search_web before its try/except (lines 43-64). -/
def searchWebBody (env : WebEnv) (query : String) : Except OsErr String := do
  let resp ← env.httpGet (duckUrl query)
  if resp.statusCode = 200 then do
    let d ← env.parseJson resp.content
    let result := renderSearch query d
    .ok (if result.length > 50 then result
         else "No detailed results found for this query")
  else
    .ok ("Search failed with status code: " ++ toString resp.statusCode)

/-- _search_web: body wrapped by its own try/except (lines 42, 66-67). -/
def searchWeb (env : WebEnv) (query : String) : String :=
  match searchWebBody env query with
  | .ok s => s
  | .error e => "Error searching web: " ++ e.msg

/-- The text cleanup of _scrape_url lines 87-90: strip each line, split
on double spaces, keep nonempty chunks joined by newlines. -/
def cleanText (t : String) : String :=
  let lines := (pySplit t "\n").map pyStrip
  let chunks := lines.foldr
    (fun line acc => (pySplit line "  ").map pyStrip ++ acc) []
  String.intercalate "\n" (chunks.filter (fun c => c != ""))

/-- Body of _scrape_url before its try/except (lines 71-99), with the
2000-character truncation of lines 92-94. -/
def scrapeUrlBody (env : WebEnv) (url : String) : Except OsErr String := do
  let resp ← env.httpGet url
  if resp.statusCode = 200 then
    let text := cleanText (env.getText resp.content)
    let text :=
      if text.length > 2000 then text.take 2000 ++ "... (truncated)"
      else text
    .ok ("Content from " ++ url ++ ":\n\n" ++ text)
  else
    .ok ("Failed to scrape URL. Status code: " ++ toString resp.statusCode)

/-- _scrape_url: body wrapped by its own try/except (lines 70,
101-102). -/
def scrapeUrl (env : WebEnv) (url : String) : String :=
  match scrapeUrlBody env url with
  | .ok s => s
  | .error e => "Error scraping URL: " ++ e.msg

/-- doc_sites of _search_documentation lines 108-113. -/
def docSites (query : String) : List String :=
  ["site:docs.python.org " ++ query,
   "site:developer.mozilla.org " ++ query,
   "site:stackoverflow.com " ++ query,
   "site:github.com " ++ query]

/-- _search_documentation lines 104-130: query the first two doc sites,
keep truthy results not containing the no-detailed-results marker, join
with blank lines or report nothing found.  Its body cannot raise in
this model (searchWeb is total), so its surrounding try/except is the
identity. -/
def searchDocumentation (env : WebEnv) (query : String) : String :=
  let results := ((docSites query).take 2).filterMap (fun sq =>
    let r := searchWeb env sq
    if r != "" && !(containsStr r "No detailed results") then some r
    else none)
  if !results.isEmpty then String.intercalate "\n\n" results
  else "No documentation found for: " ++ query

/-- Body of WebResearchTool._run before its try/except (lines 24-35):
dispatch on the operation; note that scrape with a falsy url falls
through to the unknown-operation branch. -/
def webRunBody (env : WebEnv) (operation query : String)
    (url : Option String) : Except OsErr String :=
  if operation = "search" then .ok (searchWeb env query)
  else if operation = "scrape" && truthy url then
    .ok (scrapeUrl env (url.getD ""))
  else if operation = "documentation" then
    .ok (searchDocumentation env query)
  else
    .ok ("Unknown operation: " ++ operation)

/-- WebResearchTool._run: body wrapped by the try/except of lines 24,
37-38. -/
def webRun (env : WebEnv) (operation query : String)
    (url : Option String) : String :=
  match webRunBody env operation query url with
  | .ok s => s
  | .error e => "Error in web research: " ++ e.msg

/-! ### CLI entry points (main.py)

Only the control flow deciding the process exit code is embedded; the
crew construction and kickoff inside the try block are one abstract
effect that either yields a result or raises. -/

/-- Exit code of main() (main.py lines 13-70): exit 1 on an empty
stripped description, exit 1 when the try block raises, normal return
(exit 0) otherwise. -/
def mainExitCode (projectDescription : String)
    (crewExec : Except String String) : Nat :=
  if pyStrip projectDescription = "" then 1
  else
    match crewExec with
    | .ok _ => 0
    | .error _ => 1

/-- Exit code of run_custom_workflow (main.py lines 73-154): the three
prompts are stripped on input; exit 1 when any is empty, exit 1 when
either parsed selection is empty, exit 1 when the try block raises,
normal return (exit 0) otherwise. -/
def runCustomWorkflowExitCode (agentRaw taskRaw descRaw : String)
    (crewExec : Except String String) : Nat :=
  if pyStrip agentRaw = "" ∨ pyStrip taskRaw = "" ∨ pyStrip descRaw = "" then 1
  else if parseSelection (pyStrip agentRaw) availableAgents = [] ∨
      parseSelection (pyStrip taskRaw) availableTasks = [] then 1
  else
    match crewExec with
    | .ok _ => 0
    | .error _ => 1

/-! ### Concrete environments used by witnesses and counterexamples -/

/-- A filesystem environment where every abstract OS primitive
succeeds and changes nothing. -/
def fsEnv0 : FsEnv :=
  ⟨fun _ fs => .ok fs, fun _ fs => .ok fs, fun _ fs => .ok fs,
   fun _ _ => .ok [], fun _ _ fs => .ok fs, fun _ _ fs => .ok fs⟩

/-- A git environment where every path exists and any subprocess would
raise (the git binary is missing), pinning down that no subprocess is
reached on the paths under test. -/
def gitEnvOk : GitEnv :=
  ⟨".", fun p => p, fun _ => true, fun _ _ => .error ⟨"git binary missing"⟩⟩

/-- A git environment where no path exists. -/
def gitEnvNoPath : GitEnv :=
  ⟨".", fun p => p, fun _ => false, fun _ _ => .error ⟨"git binary missing"⟩⟩

/-- A web environment with the network unreachable. -/
def webEnv0 : WebEnv :=
  ⟨fun _ => .error ⟨"network unreachable"⟩,
   fun _ => .error ⟨"invalid json"⟩, fun s => s⟩

/-! ### Helper lemmas -/

/-- Looking up a freshly inserted binding yields it. -/
theorem FS.lookup_insert (fs : FS) (p : String) (e : Entry) :
    (fs.insert p e).lookup p = some e := by
  simp [FS.lookup, FS.insert, List.find?]

/-- The error wrapper of a failing write is never the write success
string: their first characters differ. -/
theorem errWrite_ne_written (a b : String) :
    ("Error executing write_file: " ++ a) ≠ ("Content written to: " ++ b) := by
  intro h
  have h2 := congrArg String.data h
  rw [String.data_append, String.data_append] at h2
  rw [show "Error executing write_file: ".data =
        'E' :: "rror executing write_file: ".data from rfl,
      show "Content written to: ".data =
        'C' :: "ontent written to: ".data from rfl] at h2
  simp at h2

/-- Universal newline translation is the identity on text containing no
carriage return. -/
theorem univNewlines_id_of_no_cr (l : List Char)
    (h : ∀ c ∈ l, c ≠ '\x0d') : univNewlines l = l := by
  induction l with
  | nil => rfl
  | cons c rest ih =>
    rw [univNewlines.eq_def]
    split
    · rename_i heq
      exact absurd heq (by simp)
    · rename_i heq
      exact absurd (List.cons.inj heq).1 (h c (List.mem_cons_self _ _))
    · rename_i heq
      exact absurd (List.cons.inj heq).1 (h c (List.mem_cons_self _ _))
    · rename_i heq
      obtain ⟨hc, hr⟩ := List.cons.inj heq
      subst hc; subst hr
      rw [ih (fun x hx => h x (List.mem_cons_of_mem _ hx))]

/-- C2: unknown names and non-resolving numeric tokens are silently
dropped by parse_selection, the run proceeds over exactly the valid
remainder, and on the agent registry the selection "1,bad,tech_lead"
yields the name at index 0 followed by tech_lead. -/
theorem C2_selection_drops_unknown_names :
    (∀ selection avail,
      (parseSelection selection avail).all (fun x => avail.contains x) = true) ∧
    availableAgents.contains "bad" = false ∧
    parseSelection "1,bad,tech_lead" availableAgents =
      [availableAgents[0], "tech_lead"] := by
  refine ⟨parseSelection_mem_avail, by decide, by rfl⟩

/-- C3 counterexample: entering the task selection "3,1" produces the
custom crew task list [develop_backend, analyze_project], i.e. step 3
before step 1, which is not a sublist of the canonical registry order. -/
theorem C3_counterexample_user_order_kept :
    createCustomCrewTaskNames (parseSelection "3,1" availableTasks) =
      ["develop_backend", "analyze_project"] ∧
    availableTasks[0] = "analyze_project" ∧
    availableTasks[2] = "develop_backend" ∧
    ¬ (createCustomCrewTaskNames (parseSelection "3,1" availableTasks)).Sublist
        availableTasks := by
  refine ⟨by rfl, by rfl, by rfl, by decide⟩

/-- C3 amended: the custom crew executes the validly selected tasks in
exactly the order the user entered them (create_custom_crew keeps the
order of tasks_list; it does not reorder to the canonical registry
order). -/
theorem C3_amended_custom_crew_user_order :
    ∀ selection,
      createCustomCrewTaskNames (parseSelection selection availableTasks) =
        parseSelection selection availableTasks := by
  intro selection
  apply List.filter_eq_self.mpr
  intro a ha
  have h := parseSelection_mem_avail selection availableTasks
  rw [List.all_eq_true] at h
  exact h a ha

/-- C10: a numeric token k is a 1-based index: it resolves to element
k-1 exactly when 1 ≤ k ≤ length (so "0" and out-of-range tokens are
dropped), and duplicate selections are preserved as duplicates. -/
theorem C10_numeric_tokens_one_based :
    (∀ avail tok, pyIsDigit tok = true →
      resolveToken avail tok =
        if 1 ≤ pyToNat tok ∧ pyToNat tok ≤ avail.length then
          avail[pyToNat tok - 1]?
        else none) ∧
    resolveToken availableAgents "0" = none ∧
    parseSelection "2,0,11,tech_lead,6" availableAgents =
      ["frontend_developer", "tech_lead", "tech_lead"] := by
  refine ⟨?_, by rfl, by rfl⟩
  intro avail tok hd
  unfold resolveToken
  rw [hd]
  simp only [if_true]
  split
  · next hcond =>
    rw [if_pos (by omega)]
    rw [List.getElem?_eq_getElem (by omega)]
    simp only [List.get_eq_getElem, Option.some.injEq]
    congr 1
    omega
  · next hcond =>
    rw [if_neg (by omega)]

/-- C10 witness: the general clause applied to the agent registry and
the concrete digit token "3". -/
theorem C10_numeric_tokens_one_based_witness :
    pyIsDigit "3" = true ∧
    resolveToken availableAgents "3" =
      if 1 ≤ pyToNat "3" ∧ pyToNat "3" ≤ availableAgents.length then
        availableAgents[pyToNat "3" - 1]?
      else none :=
  ⟨by decide, C10_numeric_tokens_one_based.1 availableAgents "3" (by decide)⟩

/-- C1: for every operation name and argument combination, each adapter
_run call is total: the try/except returns the body result when the
body does not raise, and a textual description of the failure when it
does — never an uncaught exception. -/
theorem C1_adapter_calls_total :
    (∀ (env : FsEnv) (operation path : String)
        (content destination : Option String) (fs : FS),
      (∃ r, fsRunBody env operation path content destination fs = .ok r ∧
        fsRun env operation path content destination fs = r) ∨
      (∃ e, fsRunBody env operation path content destination fs = .error e ∧
        (fsRun env operation path content destination fs).1 =
          "Error executing " ++ operation ++ ": " ++ e.msg)) ∧
    (∀ (env : GitEnv) (operation path : String)
        (message branch remoteUrl : Option String),
      (∃ r, gitRunBody env operation path message branch remoteUrl = .ok r ∧
        gitRun env operation path message branch remoteUrl = r) ∨
      (∃ e, gitRunBody env operation path message branch remoteUrl = .error e ∧
        (gitRun env operation path message branch remoteUrl).1 =
          "Error executing Git " ++ operation ++ ": " ++ e.msg)) ∧
    (∀ (env : WebEnv) (operation query : String) (url : Option String),
      (∃ r, webRunBody env operation query url = .ok r ∧
        webRun env operation query url = r) ∨
      (∃ e, webRunBody env operation query url = .error e ∧
        webRun env operation query url =
          "Error in web research: " ++ e.msg)) := by
  refine ⟨?_, ?_, ?_⟩
  · intro env operation path content destination fs
    cases h : fsRunBody env operation path content destination fs with
    | ok r => exact Or.inl ⟨r, rfl, by simp [fsRun, h]⟩
    | error e => exact Or.inr ⟨e, rfl, by simp [fsRun, h]⟩
  · intro env operation path message branch remoteUrl
    cases h : gitRunBody env operation path message branch remoteUrl with
    | ok r => exact Or.inl ⟨r, rfl, by simp [gitRun, h]⟩
    | error e => exact Or.inr ⟨e, rfl, by simp [gitRun, h]⟩
  · intro env operation query url
    cases h : webRunBody env operation query url with
    | ok r => exact Or.inl ⟨r, rfl, by simp [webRun, h]⟩
    | error e => exact Or.inr ⟨e, rfl, by simp [webRun, h]⟩

/-- C4 counterexample: scrape invoked without its required url argument
does not produce a missing-argument message; it falls through to the
unknown-operation branch, whose message does not even contain the word
required. -/
theorem C4_counterexample_scrape_without_url :
    webRun webEnv0 "scrape" "python asyncio docs" none =
      "Unknown operation: scrape" ∧
    containsStr (webRun webEnv0 "scrape" "python asyncio docs" none)
      "required" = false :=
  ⟨rfl, rfl⟩

/-- C4 amended: write_file without content and copy_file/move_file
without destination always return their missing-argument strings;
commit without a truthy message and checkout without a truthy branch do
so provided the resolved repository path exists (otherwise the path
error wins); but scrape without url returns the unknown-operation
string, not a missing-argument message. -/
theorem C4_amended_missing_arguments :
    (∀ (env : FsEnv) (path : String) (dest : Option String) (fs : FS),
      (fsRun env "write_file" path none dest fs).1 =
        "Content is required for write operation") ∧
    (∀ (env : FsEnv) (path : String) (content : Option String) (fs : FS),
      (fsRun env "copy_file" path content none fs).1 =
        "Destination is required for copy operation") ∧
    (∀ (env : FsEnv) (path : String) (content : Option String) (fs : FS),
      (fsRun env "move_file" path content none fs).1 =
        "Destination is required for move operation") ∧
    (∀ (env : GitEnv) (path : String) (message branch remoteUrl : Option String),
      env.pathExists (env.resolve path) = true →
      truthy message = false →
      gitRun env "commit" path message branch remoteUrl =
        ("Commit message is required", [])) ∧
    (∀ (env : GitEnv) (path : String) (message branch remoteUrl : Option String),
      env.pathExists (env.resolve path) = true →
      truthy branch = false →
      gitRun env "checkout" path message branch remoteUrl =
        ("Branch name is required for checkout", [])) ∧
    (∀ (env : WebEnv) (query : String) (url : Option String),
      truthy url = false →
      webRun env "scrape" query url = "Unknown operation: scrape") := by
  refine ⟨?_, ?_, ?_, ?_, ?_, ?_⟩
  · intro env path dest fs
    simp [fsRun, fsRunBody]
  · intro env path content fs
    simp [fsRun, fsRunBody]
  · intro env path content fs
    simp [fsRun, fsRunBody]
  · intro env path message branch remoteUrl hex hmsg
    simp [gitRun, gitRunBody, hex, hmsg]
  · intro env path message branch remoteUrl hex hbr
    simp [gitRun, gitRunBody, hex, hbr]
  · intro env query url hurl
    simp [webRun, webRunBody, hurl]

/-- C4 witness: the amended statement applied to concrete environments
and arguments, with every hypothesis discharged by evaluation. -/
theorem C4_amended_missing_arguments_witness :
    gitEnvOk.pathExists (gitEnvOk.resolve "repo") = true ∧
    (fsRun fsEnv0 "write_file" "a.txt" none none ⟨[]⟩).1 =
      "Content is required for write operation" ∧
    gitRun gitEnvOk "checkout" "repo" none none none =
      ("Branch name is required for checkout", []) ∧
    webRun webEnv0 "scrape" "q" none = "Unknown operation: scrape" :=
  ⟨rfl,
   C4_amended_missing_arguments.1 fsEnv0 "a.txt" none ⟨[]⟩,
   C4_amended_missing_arguments.2.2.2.2.1 gitEnvOk "repo" none none none
     rfl rfl,
   C4_amended_missing_arguments.2.2.2.2.2 webEnv0 "q" none rfl⟩

/-- C5: commit on an existing repository path with no message argument
returns the message-required string and records no subprocess
invocation. -/
theorem C5_commit_without_message_no_subprocess :
    ∀ (env : GitEnv) (path : String) (branch remoteUrl : Option String),
      env.pathExists (env.resolve path) = true →
      gitRun env "commit" path none branch remoteUrl =
        ("Commit message is required", []) := by
  intro env path branch remoteUrl hex
  simp [gitRun, gitRunBody, hex, truthy]

/-- C5 witness: concrete environment in which every path exists and any
subprocess invocation would raise. -/
theorem C5_commit_without_message_no_subprocess_witness :
    gitEnvOk.pathExists (gitEnvOk.resolve "repo") = true ∧
    gitRun gitEnvOk "commit" "repo" none none none =
      ("Commit message is required", []) :=
  ⟨rfl, C5_commit_without_message_no_subprocess gitEnvOk "repo" none none rfl⟩

/-- C6 counterexample: writing the three-character content a CR b
succeeds, but reading the file back yields a LF b — universal newline
translation in the text-mode read breaks the exact round-trip law. -/
theorem C6_counterexample_carriage_return :
    (fsRun fsEnv0 "write_file" "notes.txt" (some "a\x0db") none ⟨[]⟩).1 =
      "Content written to: notes.txt" ∧
    (fsRun fsEnv0 "read_file" "notes.txt" none none
        (fsRun fsEnv0 "write_file" "notes.txt" (some "a\x0db") none ⟨[]⟩).2).1 =
      "a\nb" ∧
    "a\nb" ≠ "a\x0db" :=
  ⟨rfl, rfl, by decide⟩

/-- C6 amended: after a successful write_file, read_file on the same
path returns the written content with universal newline translation
applied; the round trip is exact whenever the content contains no
carriage return. -/
theorem C6_amended_write_read_roundtrip :
    ∀ (env : FsEnv) (path content : String) (dest : Option String) (fs : FS),
      (fsRun env "write_file" path (some content) dest fs).1 =
        "Content written to: " ++ path →
      ((fsRun env "read_file" path none none
          (fsRun env "write_file" path (some content) dest fs).2).1 =
        readText content ∧
       (content.data.all (fun c => c != '\x0d') = true →
        (fsRun env "read_file" path none none
            (fsRun env "write_file" path (some content) dest fs).2).1 =
          content)) := by
  intro env path content dest fs hsucc
  have hmain : (fsRun env "read_file" path none none
      (fsRun env "write_file" path (some content) dest fs).2).1 =
      readText content := by
    cases h1 : env.mkdirParent path fs with
    | error e =>
      exfalso
      have hx : (fsRun env "write_file" path (some content) dest fs).1 =
          "Error executing write_file: " ++ e.msg := by
        simp [fsRun, fsRunBody, h1, Bind.bind, Except.bind]
      rw [hx] at hsucc
      exact errWrite_ne_written _ _ hsucc
    | ok fs1 =>
      cases h2 : fs1.lookup path with
      | none =>
        have hw : fsRun env "write_file" path (some content) dest fs =
            ("Content written to: " ++ path, fs1.insert path (.file content)) := by
          simp [fsRun, fsRunBody, h1, h2, Bind.bind, Except.bind]
        rw [hw]
        simp [fsRun, fsRunBody, FS.lookup_insert]
      | some e =>
        cases e with
        | dir =>
          exfalso
          have hx : (fsRun env "write_file" path (some content) dest fs).1 =
              "Error executing write_file: " ++ ("IsADirectoryError: " ++ path) := by
            simp [fsRun, fsRunBody, h1, h2, Bind.bind, Except.bind]
          rw [hx] at hsucc
          exact errWrite_ne_written _ _ hsucc
        | file c0 =>
          have hw : fsRun env "write_file" path (some content) dest fs =
              ("Content written to: " ++ path, fs1.insert path (.file content)) := by
            simp [fsRun, fsRunBody, h1, h2, Bind.bind, Except.bind]
          rw [hw]
          simp [fsRun, fsRunBody, FS.lookup_insert]
  refine ⟨hmain, ?_⟩
  intro hnc
  have h' : ∀ x ∈ content.data, x ≠ '\x0d' := by
    intro x hx
    have hb := List.all_eq_true.mp hnc x hx
    simpa using hb
  rw [hmain]
  unfold readText
  rw [univNewlines_id_of_no_cr _ h']

/-- C6 witness: the amended round trip evaluated on carriage-return-free
content in the trivial environment. -/
theorem C6_amended_write_read_roundtrip_witness :
    (fsRun fsEnv0 "write_file" "notes.txt" (some "hello") none ⟨[]⟩).1 =
      "Content written to: notes.txt" ∧
    (fsRun fsEnv0 "read_file" "notes.txt" none none
        (fsRun fsEnv0 "write_file" "notes.txt" (some "hello") none ⟨[]⟩).2).1 =
      "hello" :=
  ⟨rfl,
   (C6_amended_write_read_roundtrip fsEnv0 "notes.txt" "hello" none ⟨[]⟩
     rfl).2 (by decide)⟩

/-- C7: delete_file on a path that does not exist returns the not-found
string naming the path, raises nothing, and leaves the filesystem
unchanged. -/
theorem C7_delete_file_not_found :
    ∀ (env : FsEnv) (path : String) (content dest : Option String) (fs : FS),
      fs.lookup path = none →
      fsRun env "delete_file" path content dest fs =
        ("File not found: " ++ path, fs) := by
  intro env path content dest fs h
  simp [fsRun, fsRunBody, h]

/-- C7 witness: deleting a missing file from the empty filesystem. -/
theorem C7_delete_file_not_found_witness :
    (FS.mk []).lookup "ghost.txt" = none ∧
    fsRun fsEnv0 "delete_file" "ghost.txt" none none ⟨[]⟩ =
      ("File not found: ghost.txt", ⟨[]⟩) :=
  ⟨rfl, C7_delete_file_not_found fsEnv0 "ghost.txt" none none ⟨[]⟩ rfl⟩

/-- C9: for any operation other than clone-with-remote-url, a resolved
repository path that does not exist makes _run return the path error
naming the original path argument, with no subprocess invoked — and
this check precedes per-operation argument validation. -/
theorem C9_path_check_precedes_argument_checks :
    ∀ (env : GitEnv) (operation path : String)
      (message branch remoteUrl : Option String),
      ¬(operation = "clone" ∧ truthy remoteUrl = true) →
      env.pathExists (env.resolve path) = false →
      gitRun env operation path message branch remoteUrl =
        ("Path does not exist: " ++ path, []) := by
  intro env operation path message branch remoteUrl hcl hex
  by_cases hop : operation = "clone"
  · have hurl : truthy remoteUrl = false := by
      cases h : truthy remoteUrl with
      | false => rfl
      | true => exact absurd ⟨hop, h⟩ hcl
    simp [gitRun, gitRunBody, hop, hurl, hex]
  · simp [gitRun, gitRunBody, hop, hex]

/-- C9 witness: commit with no message on a nonexistent path reports
the missing path, not the missing message. -/
theorem C9_path_check_precedes_argument_checks_witness :
    ¬("commit" = "clone" ∧ truthy (none : Option String) = true) ∧
    gitEnvNoPath.pathExists (gitEnvNoPath.resolve "missing") = false ∧
    gitRun gitEnvNoPath "commit" "missing" none none none =
      ("Path does not exist: missing", []) :=
  ⟨by decide, rfl,
   C9_path_check_precedes_argument_checks gitEnvNoPath "commit" "missing"
     none none none (by decide) rfl⟩

/-- C8: both CLI entry points exit 1 exactly on an empty (stripped)
description, an empty validated agent or task subset, or a raising
crew execution, and exit 0 in every other run. -/
theorem C8_exit_codes :
    (∀ desc exec, mainExitCode desc exec = 1 ↔
      (pyStrip desc = "" ∨ ∃ e, exec = Except.error e)) ∧
    (∀ desc exec, mainExitCode desc exec = 0 ∨ mainExitCode desc exec = 1) ∧
    (∀ aRaw tRaw dRaw exec,
      runCustomWorkflowExitCode aRaw tRaw dRaw exec = 1 ↔
        (pyStrip dRaw = "" ∨
         parseSelection (pyStrip aRaw) availableAgents = [] ∨
         parseSelection (pyStrip tRaw) availableTasks = [] ∨
         ∃ e, exec = Except.error e)) ∧
    (∀ aRaw tRaw dRaw exec,
      runCustomWorkflowExitCode aRaw tRaw dRaw exec = 0 ∨
      runCustomWorkflowExitCode aRaw tRaw dRaw exec = 1) := by
  have hA : parseSelection "" availableAgents = [] := by rfl
  have hT : parseSelection "" availableTasks = [] := by rfl
  refine ⟨?_, ?_, ?_, ?_⟩
  · intro desc exec
    unfold mainExitCode
    split
    · rename_i h
      simp [h]
    · rename_i h
      cases exec with
      | ok r => simp [h]
      | error e => simp [h]
  · intro desc exec
    unfold mainExitCode
    split
    · exact Or.inr rfl
    · cases exec with
      | ok r => exact Or.inl rfl
      | error e => exact Or.inr rfl
  · intro aRaw tRaw dRaw exec
    unfold runCustomWorkflowExitCode
    split
    · rename_i h
      constructor
      · intro _
        rcases h with h | h | h
        · right; left; rw [h, hA]
        · right; right; left; rw [h, hT]
        · left; exact h
      · intro _; rfl
    · rename_i h
      push_neg at h
      obtain ⟨ha, ht, hd⟩ := h
      split
      · rename_i h2
        constructor
        · intro _
          rcases h2 with h2 | h2
          · right; left; exact h2
          · right; right; left; exact h2
        · intro _; rfl
      · rename_i h2
        push_neg at h2
        obtain ⟨hpa, hpt⟩ := h2
        cases exec with
        | ok r =>
          simp only [Nat.zero_ne_one, false_iff]
          push_neg
          exact ⟨hd, hpa, hpt, fun e => by simp⟩
        | error e =>
          simp only [true_iff]
          right; right; right
          exact ⟨e, rfl⟩
  · intro aRaw tRaw dRaw exec
    unfold runCustomWorkflowExitCode
    split
    · exact Or.inr rfl
    · split
      · exact Or.inr rfl
      · cases exec with
        | ok r => exact Or.inl rfl
        | error e => exact Or.inr rfl

end AiDevTeam
